import Mathlib

/-!
Verification of the driver-drowsiness decision pipeline.

Shallow embedding of the decision logic of `DriverClass` (src/driver.py)
and of the frame producer / worker loop (src/main.py). Image rendering,
the CV inference collaborators and timing are outside the embedded state:
the detector outcome of a frame is passed in as an `Option Info` argument
(the value `detect_models` would store into `self.info` when it runs).
-/

namespace Driver

set_option maxRecDepth 10000

/-- Decision-relevant fields of the record built by
`DriverClass.detect_models` (src/driver.py lines 130-133): the detected
identity name and the drowsiness / yawn flags. The remaining entries of
the Python list (age, gender, emotion, confidence, color, box
coordinates, per-stage durations, head pose) are display-only and are
never read by the decision logic embedded here. -/
structure Info where
  name : String
  drowsiness : Bool
  yawn : Bool
deriving DecidableEq, Repr

/-- Window capacity, `self.vote_num = 15` (src/driver.py line 54). -/
def vote_num : ℕ := 15

/-- Mutable state of `DriverClass` (src/driver.py `__init__`,
lines 26-64), restricted to the fields the decision logic touches.
`info` is `none` when `self.info` is falsy (the initial `[]`, or the
empty string stored when no face is found). The vote queues are lists
with the oldest element at the head. Sums and the vote are `ℤ` like
Python ints. -/
structure DriverState where
  max_frame_count : ℕ
  frame_count : ℕ
  info : Option Info
  drowsiness_vote : List Bool
  drowsiness_sum : ℤ
  yawn_vote : List Bool
  yawn_sum : ℤ
  driving : Bool
  driver_name : String
  driver_vote : ℤ
deriving DecidableEq, Repr

/-- `DriverClass.__init__` (src/driver.py lines 26-64): `frame_count`
starts at `max_frame_count`, both vote queues are pre-filled with
`vote_num` values `False`, the sums are 0, `driving` is `False` and
`driver_vote` is 0. -/
def DriverClass.init (mfc : ℕ) (name : String) : DriverState :=
  { max_frame_count := mfc
    frame_count := mfc
    info := none
    drowsiness_vote := List.replicate vote_num false
    drowsiness_sum := 0
    yawn_vote := List.replicate vote_num false
    yawn_sum := 0
    driving := false
    driver_name := name
    driver_vote := 0 }

/-! ### IEEE binary64 model of `int(yawn_sum * 1.1)`

src/driver.py lines 216 and 219 compute `int(self.yawn_sum*1.1)` in
Python floats (IEEE binary64). We model this exactly: the literal 1.1
is rounded to the nearest double, the product is rounded to the nearest
double (round half to even), and `int` truncates toward zero. -/

/-- Fuel-bounded binary length of a natural number; exact for inputs
below 2 to the 64, which covers every use in this file. -/
def bitLenAux : ℕ → ℕ → ℕ
  | 0, _ => 0
  | fuel + 1, n => if n = 0 then 0 else bitLenAux fuel (n / 2) + 1

/-- Binary length: the least `L` with `n < 2 ^ L` (for `n < 2 ^ 64`). -/
def bitLen (n : ℕ) : ℕ := bitLenAux 64 n

/-- Quotient of `a / b` rounded to the nearest integer, ties to even
(the IEEE default rounding). -/
def rheDiv (a b : ℕ) : ℕ :=
  let q := a / b
  let r := a % b
  if 2 * r < b then q
  else if b < 2 * r then q + 1
  else if q % 2 = 0 then q else q + 1

/-- Round a natural number to 53 significant bits, half to even: the
value of the nearest binary64 to `v` (for `v` within double range). -/
def roundSig53 (v : ℕ) : ℕ :=
  let s := bitLen v - 53
  rheDiv v (2 ^ s) * 2 ^ s

/-- Scaled significand of the binary64 nearest to 1.1: the double
equals `double11over10 / 2 ^ 52`. -/
def double11over10 : ℕ := rheDiv (11 * 2 ^ 52) 10

/-- `int(k * 1.1)` computed in binary64 for a natural `k`: multiply `k`
by the double nearest 1.1, round the product to the nearest double,
truncate toward zero. -/
def pyIntMul11 (k : ℕ) : ℕ := roundSig53 (k * double11over10) / 2 ^ 52

/-- `int(n * 1.1)` for a Python int `n` of either sign; binary64
rounding and truncation toward zero are both symmetric in sign. -/
def pyIntMul11Int (n : ℤ) : ℤ :=
  if 0 ≤ n then (pyIntMul11 n.toNat : ℤ) else -(pyIntMul11 (-n).toNat : ℤ)

/-- The three sleepy statuses of src/driver.py lines 216-222. -/
inductive SleepyStatus
  | danger
  | warning
  | safe
deriving DecidableEq, Repr

/-- The severity score `int(self.yawn_sum*1.1)+self.drowsiness_sum*2`
(src/driver.py line 216). -/
def sleepyScore (drowsiness_sum yawn_sum : ℤ) : ℤ :=
  pyIntMul11Int yawn_sum + drowsiness_sum * 2

/-- The severity classification (src/driver.py lines 216-222): danger
when the score exceeds `vote_num`, warning when it exceeds
`vote_num // 2`, safe otherwise. -/
def sleepyStatus (drowsiness_sum yawn_sum : ℤ) : SleepyStatus :=
  if (vote_num : ℤ) < sleepyScore drowsiness_sum yawn_sum then .danger
  else if ((vote_num / 2 : ℕ) : ℤ) < sleepyScore drowsiness_sum yawn_sum then .warning
  else .safe

/-- One voting-window update (src/driver.py lines 209-211 and 212-214):
`sum += new; sum -= queue.get(); queue.put(new)`. The queue gives back
its oldest element (the head) and the new observation is appended at
the back. Returns the new window and the new running sum. -/
def votePush (w : List Bool) (sum : ℤ) (b : Bool) : List Bool × ℤ :=
  (w.tail ++ [b],
   sum + (if b then 1 else 0) - (if w.headI then 1 else 0))

/-- Iterated `votePush` over a list of observations. -/
def pushAll (w : List Bool) (sum : ℤ) : List Bool → List Bool × ℤ
  | [] => (w, sum)
  | b :: bs => pushAll (votePush w sum b).1 (votePush w sum b).2 bs

/-- The driver-authorization vote update (src/driver.py lines 229-232):
increment when the detected name matches and the vote is below 20,
otherwise decrement when positive, otherwise leave unchanged. -/
def driver_vote_update (driver_name : String) (vote : ℤ) (name : String) : ℤ :=
  if name = driver_name ∧ vote < 20 then vote + 1
  else if 0 < vote then vote - 1
  else vote

/-- The displayed "Vehicle Locked" text (src/driver.py line 235). -/
def lockedText : String := "Vehicle Locked"

/-- The displayed "Driving Normally" text (src/driver.py line 241). -/
def drivingText : String := "Driving Normally"

/-- The displayed wrong-driver text (src/driver.py line 244); the
Python literal ends in the bell escape. -/
def wrongDriverText : String := "Wrong Driver! Speed Limit: 20\x07"

/-- Per-frame observable output of `detect_image`: whether the
missing-driver branch ran, the instantaneous alert text, the severity
status and the authorization status text (each absent on
missing-driver frames, which render only the missing indicator). -/
structure FrameOutput where
  driverMissing : Bool
  alert : Option String
  sleepy_status : Option SleepyStatus
  driving_status : Option String
deriving DecidableEq, Repr

/-- The `self.info` value in effect for a frame after the frame-skip
throttle (src/driver.py lines 140-144): the fresh detector outcome `r`
when detection runs this frame, the stored value otherwise. -/
def effective_info (s : DriverState) (r : Option Info) : Option Info :=
  if s.max_frame_count ≤ s.frame_count then r else s.info

/-- The frame-skip throttle (src/driver.py lines 140-144): when
`frame_count >= max_frame_count`, detection runs (storing `r` into
`self.info`) and `frame_count` resets to 0; otherwise the frame is
skipped and `frame_count` increments. -/
def throttle_state (s : DriverState) (r : Option Info) : DriverState :=
  if s.max_frame_count ≤ s.frame_count then
    { s with info := r, frame_count := 0 }
  else
    { s with frame_count := s.frame_count + 1 }

/-- Whether the next call of `detect_image` on state `s` runs a full
detection pass (src/driver.py line 140). -/
def runs_detection (s : DriverState) : Prop :=
  s.max_frame_count ≤ s.frame_count

instance (s : DriverState) : Decidable (runs_detection s) :=
  inferInstanceAs (Decidable (_ ≤ _))

/-- The body of `detect_image` past the missing-driver check
(src/driver.py lines 153-257) on a state `s` whose stored `info` is
present, in source order: the instantaneous alert text (lines 193-201),
the two voting-window updates and the severity status (lines 209-225),
the vote update (lines 229-232) and the authorization status with the
Locked-to-Driving transition (lines 234-246). -/
def process_info (s : DriverState) (i : Info) : DriverState × FrameOutput :=
  let alert : Option String :=
    if i.drowsiness then
      if i.yawn then some "DROWSINESS + YAWN" else some "DROWSINESS"
    else if i.yawn then some "YAWN" else none
  let dPair := votePush s.drowsiness_vote s.drowsiness_sum i.drowsiness
  let yPair := votePush s.yawn_vote s.yawn_sum i.yawn
  let sleepy := sleepyStatus dPair.2 yPair.2
  let v := driver_vote_update s.driver_name s.driver_vote i.name
  let driving := if s.driving then true else decide (15 ≤ v)
  let status :=
    if s.driving then
      if v < 5 then wrongDriverText else drivingText
    else lockedText
  ({ s with drowsiness_vote := dPair.1, drowsiness_sum := dPair.2,
            yawn_vote := yPair.1, yawn_sum := yPair.2,
            driver_vote := v, driving := driving },
   { driverMissing := false, alert := alert,
     sleepy_status := some sleepy, driving_status := some status })

/-- One call of `DriverClass.detect_image` (src/driver.py
lines 135-257) on the decision state, where `r` is the value
`detect_models` would store into `self.info` if detection runs on this
frame (`none` when no face is found, src/driver.py lines 82-85): the
frame-skip throttle runs first (lines 140-144), then either the
missing-driver early return (lines 147-151) or the full per-frame
update (lines 153-257). -/
def detect_image (s : DriverState) (r : Option Info) : DriverState × FrameOutput :=
  match (throttle_state s r).info with
  | none =>
      (throttle_state s r,
       { driverMissing := true, alert := none,
         sleepy_status := none, driving_status := none })
  | some i => process_info (throttle_state s r) i

/-- Run `detect_image` over a list of per-frame detector outcomes,
returning the final state. -/
def runFrames (s : DriverState) : List (Option Info) → DriverState
  | [] => s
  | r :: rs => runFrames (detect_image s r).1 rs

/-- Run `detect_image` over a list of per-frame detector outcomes,
returning the list of per-frame outputs. -/
def runOutputs (s : DriverState) : List (Option Info) → List FrameOutput
  | [] => []
  | r :: rs => (detect_image s r).2 :: runOutputs (detect_image s r).1 rs

/-! ### src/main.py: producer and worker loops

Frames are opaque; we use `ℕ`. A queue item is `Option ℕ`: `some f` is
a frame, `none` is the reserved `None` stop sentinel checked by the
worker (src/main.py line 27). -/

/-- The sequence of items `capture_frames` (src/main.py lines 30-42)
puts into the frame queue, given the per-iteration behavior of the
capture source: each event records what `cap.isOpened()` returns and
what `cap.read()` yields (`none` when `retval` is false). The loop
body puts the frame on a successful read and puts nothing otherwise;
the loop exits the first time `isOpened` is false, and the `finally`
block then releases the capture. Frame flipping only transforms pixel
data, so the queue item keeps the frame value. -/
def capture_frames_puts : List (Bool × Option ℕ) → List (Option ℕ)
  | [] => []
  | (opened, r) :: rest =>
      if opened then
        (match r with
         | some f => [some f]
         | none => []) ++ capture_frames_puts rest
      else []

/-- Full observable behavior of `capture_frames`: the queue items it
puts, and whether `cap.release()` ran (the `finally` block of
src/main.py lines 41-42 runs on every exit path, so this is always
true). -/
def capture_frames (events : List (Bool × Option ℕ)) : List (Option ℕ) × Bool :=
  (capture_frames_puts events, true)

/-- The sequence of items the worker loop of src/main.py lines 24-28
takes from the frame queue, given the sequence of items the queue
yields: it takes items one by one and breaks immediately after taking
the `None` sentinel, issuing no further take. -/
def worker_takes : List (Option ℕ) → List (Option ℕ)
  | [] => []
  | none :: _ => [none]
  | some f :: rest => some f :: worker_takes rest

/-! ### Helper lemmas -/

@[simp]
theorem throttle_state_info (s : DriverState) (r : Option Info) :
    (throttle_state s r).info = effective_info s r := by
  unfold throttle_state effective_info
  split <;> rfl

@[simp]
theorem throttle_state_max (s : DriverState) (r : Option Info) :
    (throttle_state s r).max_frame_count = s.max_frame_count := by
  unfold throttle_state
  split <;> rfl

@[simp]
theorem throttle_state_driving (s : DriverState) (r : Option Info) :
    (throttle_state s r).driving = s.driving := by
  unfold throttle_state
  split <;> rfl

@[simp]
theorem throttle_state_driver_name (s : DriverState) (r : Option Info) :
    (throttle_state s r).driver_name = s.driver_name := by
  unfold throttle_state
  split <;> rfl

@[simp]
theorem throttle_state_driver_vote (s : DriverState) (r : Option Info) :
    (throttle_state s r).driver_vote = s.driver_vote := by
  unfold throttle_state
  split <;> rfl

@[simp]
theorem throttle_state_drowsiness_vote (s : DriverState) (r : Option Info) :
    (throttle_state s r).drowsiness_vote = s.drowsiness_vote := by
  unfold throttle_state
  split <;> rfl

@[simp]
theorem throttle_state_drowsiness_sum (s : DriverState) (r : Option Info) :
    (throttle_state s r).drowsiness_sum = s.drowsiness_sum := by
  unfold throttle_state
  split <;> rfl

@[simp]
theorem throttle_state_yawn_vote (s : DriverState) (r : Option Info) :
    (throttle_state s r).yawn_vote = s.yawn_vote := by
  unfold throttle_state
  split <;> rfl

@[simp]
theorem throttle_state_yawn_sum (s : DriverState) (r : Option Info) :
    (throttle_state s r).yawn_sum = s.yawn_sum := by
  unfold throttle_state
  split <;> rfl

theorem throttle_state_frame_count (s : DriverState) (r : Option Info) :
    (throttle_state s r).frame_count =
      if s.max_frame_count ≤ s.frame_count then 0 else s.frame_count + 1 := by
  unfold throttle_state
  split <;> rfl

theorem detect_image_of_none (s : DriverState) (r : Option Info)
    (h : effective_info s r = none) :
    detect_image s r =
      (throttle_state s r,
       { driverMissing := true, alert := none,
         sleepy_status := none, driving_status := none }) := by
  unfold detect_image
  rw [throttle_state_info, h]

theorem detect_image_of_some (s : DriverState) (r : Option Info) (i : Info)
    (h : effective_info s r = some i) :
    detect_image s r = process_info (throttle_state s r) i := by
  unfold detect_image
  rw [throttle_state_info, h]

theorem process_info_fst (s : DriverState) (i : Info) :
    (process_info s i).1 =
      { s with
        drowsiness_vote := (votePush s.drowsiness_vote s.drowsiness_sum i.drowsiness).1
        drowsiness_sum := (votePush s.drowsiness_vote s.drowsiness_sum i.drowsiness).2
        yawn_vote := (votePush s.yawn_vote s.yawn_sum i.yawn).1
        yawn_sum := (votePush s.yawn_vote s.yawn_sum i.yawn).2
        driver_vote := driver_vote_update s.driver_name s.driver_vote i.name
        driving :=
          if s.driving then true
          else decide (15 ≤ driver_vote_update s.driver_name s.driver_vote i.name) } := rfl

theorem process_info_driving_status (s : DriverState) (i : Info) :
    (process_info s i).2.driving_status =
      some (if s.driving then
              if driver_vote_update s.driver_name s.driver_vote i.name < 5 then
                wrongDriverText
              else drivingText
            else lockedText) := rfl

theorem driver_vote_update_bounds (dn : String) (v : ℤ) (n : String)
    (h0 : 0 ≤ v) (h1 : v ≤ 20) :
    0 ≤ driver_vote_update dn v n ∧ driver_vote_update dn v n ≤ 20 := by
  unfold driver_vote_update
  split_ifs <;> omega

theorem detect_image_driver_vote_bounds (s : DriverState) (r : Option Info)
    (h0 : 0 ≤ s.driver_vote) (h1 : s.driver_vote ≤ 20) :
    0 ≤ (detect_image s r).1.driver_vote ∧ (detect_image s r).1.driver_vote ≤ 20 := by
  cases h : effective_info s r with
  | none =>
      rw [detect_image_of_none s r h]
      simpa using ⟨h0, h1⟩
  | some i =>
      rw [detect_image_of_some s r i h, process_info_fst]
      simpa using driver_vote_update_bounds s.driver_name s.driver_vote i.name h0 h1

theorem runFrames_driver_vote_bounds (rs : List (Option Info)) :
    ∀ s : DriverState, 0 ≤ s.driver_vote → s.driver_vote ≤ 20 →
      0 ≤ (runFrames s rs).driver_vote ∧ (runFrames s rs).driver_vote ≤ 20 := by
  induction rs with
  | nil => exact fun s h0 h1 => ⟨h0, h1⟩
  | cons r rs ih =>
      intro s h0 h1
      have h := detect_image_driver_vote_bounds s r h0 h1
      exact ih (detect_image s r).1 h.1 h.2

theorem detect_image_driving_mono (s : DriverState) (r : Option Info)
    (h : s.driving = true) : (detect_image s r).1.driving = true := by
  cases he : effective_info s r with
  | none =>
      rw [detect_image_of_none s r he]
      simpa using h
  | some i =>
      rw [detect_image_of_some s r i he, process_info_fst]
      simp [h]

theorem runFrames_driving_mono (rs : List (Option Info)) :
    ∀ s : DriverState, s.driving = true → (runFrames s rs).driving = true := by
  induction rs with
  | nil => exact fun s h => h
  | cons r rs ih =>
      intro s h
      exact ih (detect_image s r).1 (detect_image_driving_mono s r h)

theorem detect_image_max (s : DriverState) (r : Option Info) :
    (detect_image s r).1.max_frame_count = s.max_frame_count := by
  cases he : effective_info s r with
  | none => rw [detect_image_of_none s r he]; simp
  | some i => rw [detect_image_of_some s r i he, process_info_fst]; simp

theorem detect_image_frame_count (s : DriverState) (r : Option Info) :
    (detect_image s r).1.frame_count =
      if s.max_frame_count ≤ s.frame_count then 0 else s.frame_count + 1 := by
  cases he : effective_info s r with
  | none => rw [detect_image_of_none s r he]; exact throttle_state_frame_count s r
  | some i =>
      rw [detect_image_of_some s r i he, process_info_fst]
      exact throttle_state_frame_count s r

theorem runFrames_frame_count (rs : List (Option Info)) :
    ∀ s : DriverState, s.frame_count ≤ s.max_frame_count →
      (runFrames s rs).frame_count =
        (s.frame_count + rs.length) % (s.max_frame_count + 1) := by
  induction rs with
  | nil =>
      intro s h
      simp [runFrames, Nat.mod_eq_of_lt (Nat.lt_succ_of_le h)]
  | cons r rs ih =>
      intro s h
      show (runFrames (detect_image s r).1 rs).frame_count = _
      have hmax := detect_image_max s r
      have hfc := detect_image_frame_count s r
      have hlen : (r :: rs).length = rs.length + 1 := rfl
      by_cases hrun : s.max_frame_count ≤ s.frame_count
      · have heq : s.frame_count = s.max_frame_count := le_antisymm h hrun
        have h0 : (detect_image s r).1.frame_count ≤ (detect_image s r).1.max_frame_count := by
          rw [hfc, hmax, if_pos hrun]; exact Nat.zero_le _
        rw [ih (detect_image s r).1 h0, hfc, hmax, if_pos hrun, hlen]
        have harith : s.frame_count + (rs.length + 1) =
            rs.length + (s.max_frame_count + 1) := by omega
        rw [harith, Nat.add_mod_right, Nat.zero_add]
      · have hlt : s.frame_count < s.max_frame_count := lt_of_not_le hrun
        have h0 : (detect_image s r).1.frame_count ≤ (detect_image s r).1.max_frame_count := by
          rw [hfc, hmax, if_neg hrun]; exact hlt
        rw [ih (detect_image s r).1 h0, hfc, hmax, if_neg hrun, hlen]
        congr 1
        omega

theorem mod_self_add_iff (m n : ℕ) :
    (m + n) % (m + 1) = m ↔ n % (m + 1) = 0 := by
  have ht : n % (m + 1) < m + 1 := Nat.mod_lt _ (Nat.succ_pos m)
  have key : (m + n) % (m + 1) = (m + n % (m + 1)) % (m + 1) := by
    conv_lhs => rw [Nat.add_mod, Nat.mod_eq_of_lt (Nat.lt_succ_self m)]
  rw [key]
  rcases Nat.eq_zero_or_pos (n % (m + 1)) with h0 | hpos
  · simp [h0, Nat.mod_eq_of_lt (Nat.lt_succ_self m)]
  · have hsplit : m + n % (m + 1) = (n % (m + 1) - 1) + (m + 1) := by omega
    rw [hsplit, Nat.add_mod_right,
      Nat.mod_eq_of_lt (show n % (m + 1) - 1 < m + 1 by omega)]
    omega

theorem runFrames_max (rs : List (Option Info)) :
    ∀ s : DriverState, (runFrames s rs).max_frame_count = s.max_frame_count := by
  induction rs with
  | nil => exact fun s => rfl
  | cons r rs ih =>
      intro s
      show (runFrames (detect_image s r).1 rs).max_frame_count = _
      rw [ih (detect_image s r).1, detect_image_max]

theorem runFrames_runs_detection (rs : List (Option Info)) (mfc : ℕ) (nm : String) :
    runs_detection (runFrames (DriverClass.init mfc nm) rs) ↔
      rs.length % (mfc + 1) = 0 := by
  have hmax := runFrames_max rs (DriverClass.init mfc nm)
  have hfc := runFrames_frame_count rs (DriverClass.init mfc nm) (le_refl mfc)
  unfold runs_detection
  rw [hmax, hfc]
  show mfc ≤ (mfc + rs.length) % (mfc + 1) ↔ _
  have hlt : (mfc + rs.length) % (mfc + 1) < mfc + 1 := Nat.mod_lt _ (Nat.succ_pos mfc)
  constructor
  · intro hle
    exact (mod_self_add_iff mfc rs.length).1 (le_antisymm (by omega) hle)
  · intro h0
    rw [(mod_self_add_iff mfc rs.length).2 h0]

theorem votePush_fst_ne_nil (w : List Bool) (s : ℤ) (b : Bool) :
    (votePush w s b).1 ≠ [] := by
  simp [votePush]

theorem pushAll_window (xs : List Bool) :
    ∀ (w : List Bool) (s : ℤ), w ≠ [] →
      (pushAll w s xs).1 = (w ++ xs).drop xs.length := by
  induction xs with
  | nil => intro w s _; simp [pushAll]
  | cons b bs ih =>
      intro w s hw
      show (pushAll (votePush w s b).1 (votePush w s b).2 bs).1 = _
      rw [ih _ _ (votePush_fst_ne_nil w s b)]
      cases w with
      | nil => exact absurd rfl hw
      | cons h t =>
          show ((t ++ [b]) ++ bs).drop bs.length = _
          rw [List.append_assoc, List.singleton_append]
          show _ = (h :: (t ++ b :: bs)).drop (bs.length + 1)
          rw [List.drop_succ_cons]

theorem votePush_sum_count (w : List Bool) (s : ℤ) (b : Bool)
    (hw : w ≠ []) (hs : s = (w.count true : ℤ)) :
    (votePush w s b).2 = ((votePush w s b).1.count true : ℤ) := by
  cases w with
  | nil => exact absurd rfl hw
  | cons h t =>
      subst hs
      show (((h :: t).count true : ℤ)
          + (if b then 1 else 0) - (if (h :: t).headI then 1 else 0))
        = (((h :: t).tail ++ [b]).count true : ℤ)
      cases h <;> cases b <;>
        simp [List.count_cons, List.count_append, List.count_nil, List.headI,
          List.tail_cons]

theorem pushAll_sum_count (xs : List Bool) :
    ∀ (w : List Bool) (s : ℤ), w ≠ [] → s = (w.count true : ℤ) →
      (pushAll w s xs).2 = ((pushAll w s xs).1.count true : ℤ) := by
  induction xs with
  | nil => intro w s _ hs; simpa [pushAll] using hs
  | cons b bs ih =>
      intro w s hw hs
      exact ih _ _ (votePush_fst_ne_nil w s b) (votePush_sum_count w s b hw hs)

theorem count_drop_prefix (xs : List Bool) :
    ((List.replicate 15 false ++ xs).drop xs.length).count true
      = (xs.drop (xs.length - 15)).count true := by
  by_cases h : xs.length ≤ 15
  · rw [List.drop_append_of_le_length (by simpa using h), List.drop_replicate]
    simp [List.count_append, List.count_replicate, Nat.sub_eq_zero_of_le h]
  · have key := @List.drop_append Bool (List.replicate 15 false) xs (xs.length - 15)
    rw [List.length_replicate] at key
    rw [show (15 : ℕ) + (xs.length - 15) = xs.length from by omega] at key
    rw [key]

theorem detect_image_info (s : DriverState) (r : Option Info) :
    (detect_image s r).1.info = effective_info s r := by
  cases he : effective_info s r with
  | none => rw [detect_image_of_none s r he]; simp [he]
  | some i => rw [detect_image_of_some s r i he, process_info_fst]; simp [he]

theorem capture_frames_puts_no_sentinel (events : List (Bool × Option ℕ)) :
    Option.none ∉ capture_frames_puts events := by
  induction events with
  | nil => simp [capture_frames_puts]
  | cons e rest ih =>
      obtain ⟨opened, r⟩ := e
      unfold capture_frames_puts
      cases opened with
      | false => simp
      | true => cases r <;> simpa using ih

theorem worker_takes_stop (xs ys : List (Option ℕ)) (h : Option.none ∉ xs) :
    worker_takes (xs ++ Option.none :: ys) = xs ++ [Option.none] := by
  induction xs with
  | nil => simp [worker_takes]
  | cons x xs ih =>
      cases x with
      | none => exact absurd (List.mem_cons_self _ _) h
      | some f =>
          show some f :: worker_takes (xs ++ Option.none :: ys) = _
          rw [ih (fun hm => h (List.mem_cons_of_mem _ hm))]
          rfl

theorem pyIntMul11_eq_floor : ∀ y : ℕ, y ≤ 15 → pyIntMul11 y = 11 * y / 10 := by
  decide

/-! ### Claims -/

/-- C4: for drowsy and yawn sums in [0,15] the severity score equals
floor(yawn_sum * 1.1) + drowsy_sum * 2 computed exactly — the binary64
computation of int(yawn_sum*1.1) agrees with the exact floor on all 16
values — and the classification is danger when the score exceeds 15,
warning when it is in (7,15], safe when it is at most 7; in particular
(4,0) scores 8 (warning), (0,15) scores 16 (danger), (3,0) scores 6
(safe). -/
theorem claim_C4 :
    (∀ d : ℕ, d ≤ 15 → ∀ y : ℕ, y ≤ 15 →
      sleepyScore (d : ℤ) (y : ℤ) = ((11 * y / 10 + 2 * d : ℕ) : ℤ))
    ∧ (∀ d y : ℤ,
        (sleepyStatus d y = SleepyStatus.danger ↔ 15 < sleepyScore d y)
        ∧ (sleepyStatus d y = SleepyStatus.warning ↔
            7 < sleepyScore d y ∧ sleepyScore d y ≤ 15)
        ∧ (sleepyStatus d y = SleepyStatus.safe ↔ sleepyScore d y ≤ 7))
    ∧ sleepyScore 4 0 = 8 ∧ sleepyStatus 4 0 = SleepyStatus.warning
    ∧ sleepyScore 0 15 = 16 ∧ sleepyStatus 0 15 = SleepyStatus.danger
    ∧ sleepyScore 3 0 = 6 ∧ sleepyStatus 3 0 = SleepyStatus.safe := by
  refine ⟨?_, ?_, by decide, by decide, by decide, by decide, by decide, by decide⟩
  · intro d _ y hy
    unfold sleepyScore pyIntMul11Int
    rw [if_pos (by positivity : (0 : ℤ) ≤ (y : ℤ)), Int.toNat_natCast,
      pyIntMul11_eq_floor y hy]
    push_cast
    ring
  · intro d y
    unfold sleepyStatus vote_num
    norm_num
    split_ifs with h1 h2 <;> refine ⟨?_, ?_, ?_⟩ <;> simp <;> omega

/-- C4 witness: the score identity instantiated at drowsy sum 4 and
yawn sum 10 (where the float rounding of 10 * 1.1 matters). -/
theorem claim_C4_witness :
    (4 : ℕ) ≤ 15 ∧ (10 : ℕ) ≤ 15
      ∧ sleepyScore ((4 : ℕ) : ℤ) ((10 : ℕ) : ℤ) = ((11 * 10 / 10 + 2 * 4 : ℕ) : ℤ) :=
  ⟨by decide, by decide, claim_C4.1 4 (by decide) 10 (by decide)⟩

/-- C5: pushing any sequence of booleans into a voting window started
from the pre-filled all-false state keeps the running sum equal to the
number of true values among the last min(15, pushes) observations, keeps
the sum in [0,15], evicts the oldest entry on each push (the window is
always at capacity 15), and maintains the sum with the O(1) bookkeeping
sum plus new minus evicted. -/
theorem claim_C5 :
    (∀ xs : List Bool,
      (pushAll (List.replicate vote_num false) 0 xs).2
          = ((xs.drop (xs.length - vote_num)).count true : ℤ)
        ∧ 0 ≤ (pushAll (List.replicate vote_num false) 0 xs).2
        ∧ (pushAll (List.replicate vote_num false) 0 xs).2 ≤ 15
        ∧ (xs.drop (xs.length - vote_num)).length = min vote_num xs.length
        ∧ (pushAll (List.replicate vote_num false) 0 xs).1.length = vote_num)
    ∧ (∀ (w : List Bool) (s : ℤ) (b : Bool), w.length = vote_num →
        (votePush w s b).1 = w.tail ++ [b]
        ∧ (votePush w s b).1.length = vote_num
        ∧ (votePush w s b).2
            = s + (if b then 1 else 0) - (if w.headI then 1 else 0)) := by
  constructor
  · intro xs
    have hne : (List.replicate vote_num false : List Bool) ≠ [] := by decide
    have hw := pushAll_window xs (List.replicate vote_num false) 0 hne
    have hs := pushAll_sum_count xs (List.replicate vote_num false) 0 hne
      (by simp [List.count_replicate, vote_num])
    rw [hw] at hs
    have hcount : ((List.replicate vote_num false ++ xs).drop xs.length).count true
        = (xs.drop (xs.length - vote_num)).count true := by
      simpa [vote_num] using count_drop_prefix xs
    have hlen : ((List.replicate vote_num false ++ xs).drop xs.length).length
        = vote_num := by
      simp only [List.length_drop, List.length_append, List.length_replicate, vote_num]
      omega
    refine ⟨by rw [hs, hcount], ?_, ?_, ?_, by rw [hw, hlen]⟩
    · rw [hs]
      exact Int.ofNat_nonneg _
    · rw [hs, hcount]
      have hle : (xs.drop (xs.length - vote_num)).count true
          ≤ (xs.drop (xs.length - vote_num)).length :=
        List.count_le_length true _
      have hl : (xs.drop (xs.length - vote_num)).length ≤ 15 := by
        simp [List.length_drop, vote_num]
        omega
      exact_mod_cast le_trans hle hl
    · simp [List.length_drop, vote_num]
      omega
  · intro w s b hlen
    refine ⟨rfl, ?_, rfl⟩
    have hpos : w.length = 15 := by simpa [vote_num] using hlen
    simp [votePush, List.length_tail, hpos, vote_num]

/-- C5 witness: the eviction and bookkeeping facts instantiated at a
concrete full window. -/
theorem claim_C5_witness :
    (List.replicate 15 true : List Bool).length = vote_num
    ∧ ((votePush (List.replicate 15 true) 15 false).1
          = (List.replicate 15 true : List Bool).tail ++ [false]
        ∧ (votePush (List.replicate 15 true) 15 false).1.length = vote_num
        ∧ (votePush (List.replicate 15 true) 15 false).2
            = 15 + (if false then 1 else 0)
              - (if (List.replicate 15 true : List Bool).headI then 1 else 0)) :=
  ⟨by decide, claim_C5.2 (List.replicate 15 true) 15 false (by decide)⟩

/-- C6: a processed frame whose effective detection result is absent
leaves both voting windows, both running sums, the driver vote and the
driving flag unchanged, and renders the missing-driver output. -/
theorem claim_C6 (s : DriverState) (r : Option Info)
    (h : effective_info s r = none) :
    (detect_image s r).1.drowsiness_vote = s.drowsiness_vote
    ∧ (detect_image s r).1.drowsiness_sum = s.drowsiness_sum
    ∧ (detect_image s r).1.yawn_vote = s.yawn_vote
    ∧ (detect_image s r).1.yawn_sum = s.yawn_sum
    ∧ (detect_image s r).1.driver_vote = s.driver_vote
    ∧ (detect_image s r).1.driving = s.driving
    ∧ (detect_image s r).2.driverMissing = true := by
  rw [detect_image_of_none s r h]
  simp

/-- C6 witness: the freeze property instantiated at the initial state
with an absent detector outcome. -/
theorem claim_C6_witness :
    effective_info (DriverClass.init 0 "alice") none = none
    ∧ ((detect_image (DriverClass.init 0 "alice") none).1.drowsiness_vote
          = (DriverClass.init 0 "alice").drowsiness_vote
        ∧ (detect_image (DriverClass.init 0 "alice") none).1.drowsiness_sum
            = (DriverClass.init 0 "alice").drowsiness_sum
        ∧ (detect_image (DriverClass.init 0 "alice") none).1.yawn_vote
            = (DriverClass.init 0 "alice").yawn_vote
        ∧ (detect_image (DriverClass.init 0 "alice") none).1.yawn_sum
            = (DriverClass.init 0 "alice").yawn_sum
        ∧ (detect_image (DriverClass.init 0 "alice") none).1.driver_vote
            = (DriverClass.init 0 "alice").driver_vote
        ∧ (detect_image (DriverClass.init 0 "alice") none).1.driving
            = (DriverClass.init 0 "alice").driving
        ∧ (detect_image (DriverClass.init 0 "alice") none).2.driverMissing = true) :=
  ⟨by decide, claim_C6 (DriverClass.init 0 "alice") none (by decide)⟩

/-- C7: the producer releases the capture on exit but never places the
stop sentinel into the frame queue — refuting the propagation half of
the claim — while the worker half holds: after taking the sentinel the
worker loop stops and issues no further take. The first conjunct
evaluates the producer at an immediately-failing source. -/
theorem claim_C7 :
    capture_frames [(false, none)] = ([], true)
    ∧ (∀ events : List (Bool × Option ℕ), Option.none ∉ (capture_frames events).1)
    ∧ (∀ xs ys : List (Option ℕ), Option.none ∉ xs →
        worker_takes (xs ++ Option.none :: ys) = xs ++ [Option.none]) :=
  ⟨rfl, capture_frames_puts_no_sentinel, worker_takes_stop⟩

/-- C7 witness: the worker half instantiated at a concrete queue
sequence with one frame before the sentinel and one after. -/
theorem claim_C7_witness :
    Option.none ∉ [some 1]
    ∧ worker_takes ([some 1] ++ Option.none :: [some 2]) = [some 1] ++ [Option.none] :=
  ⟨by decide, claim_C7.2.2 [some 1] [some 2] (by decide)⟩

/-- C1 counterexample: 25 consecutive matching frames from the initial
state do NOT leave the vote at 20 — they leave it at 19, because at
vote 20 a matching frame fails the vote < 20 test and the elif branch
decrements the vote. -/
theorem claim_C1_counterexample :
    (runFrames (DriverClass.init 0 "alice")
        (List.replicate 25 (some ⟨"alice", false, false⟩))).driver_vote ≠ 20
    ∧ (runFrames (DriverClass.init 0 "alice")
        (List.replicate 25 (some ⟨"alice", false, false⟩))).driver_vote = 19 := by
  constructor
  · decide
  · decide

/-- C1 (amended): on every processed frame with a detection result the
vote increments by 1 when the name matches and the vote is below 20,
else decrements by 1 when positive, else is unchanged; from the initial
state the vote always stays in [0,20]; 20 consecutive matching frames
reach vote 20, and 25 consecutive matching frames leave the vote at 19
(once the vote reaches 20 a matching frame decrements it). -/
theorem claim_C1 :
    (∀ (s : DriverState) (r : Option Info) (i : Info), effective_info s r = some i →
      i.name = s.driver_name → s.driver_vote < 20 →
        (detect_image s r).1.driver_vote = s.driver_vote + 1)
    ∧ (∀ (s : DriverState) (r : Option Info) (i : Info), effective_info s r = some i →
        ¬(i.name = s.driver_name ∧ s.driver_vote < 20) → 0 < s.driver_vote →
        (detect_image s r).1.driver_vote = s.driver_vote - 1)
    ∧ (∀ (s : DriverState) (r : Option Info) (i : Info), effective_info s r = some i →
        ¬(i.name = s.driver_name ∧ s.driver_vote < 20) → s.driver_vote ≤ 0 →
        (detect_image s r).1.driver_vote = s.driver_vote)
    ∧ (∀ (mfc : ℕ) (nm : String) (rs : List (Option Info)),
        0 ≤ (runFrames (DriverClass.init mfc nm) rs).driver_vote
        ∧ (runFrames (DriverClass.init mfc nm) rs).driver_vote ≤ 20)
    ∧ (runFrames (DriverClass.init 0 "alice")
        (List.replicate 20 (some ⟨"alice", false, false⟩))).driver_vote = 20
    ∧ (runFrames (DriverClass.init 0 "alice")
        (List.replicate 25 (some ⟨"alice", false, false⟩))).driver_vote = 19 := by
  refine ⟨?_, ?_, ?_, ?_, by decide, by decide⟩
  · intro s r i h hn hv
    rw [detect_image_of_some s r i h]
    show driver_vote_update (throttle_state s r).driver_name
      (throttle_state s r).driver_vote i.name = s.driver_vote + 1
    rw [throttle_state_driver_name, throttle_state_driver_vote]
    unfold driver_vote_update
    rw [if_pos ⟨hn, hv⟩]
  · intro s r i h hcond hpos
    rw [detect_image_of_some s r i h]
    show driver_vote_update (throttle_state s r).driver_name
      (throttle_state s r).driver_vote i.name = s.driver_vote - 1
    rw [throttle_state_driver_name, throttle_state_driver_vote]
    unfold driver_vote_update
    rw [if_neg hcond, if_pos hpos]
  · intro s r i h hcond hle
    rw [detect_image_of_some s r i h]
    show driver_vote_update (throttle_state s r).driver_name
      (throttle_state s r).driver_vote i.name = s.driver_vote
    rw [throttle_state_driver_name, throttle_state_driver_vote]
    unfold driver_vote_update
    rw [if_neg hcond, if_neg (not_lt.mpr hle)]
  · intro mfc nm rs
    exact runFrames_driver_vote_bounds rs (DriverClass.init mfc nm)
      (le_refl 0) (by show (0 : ℤ) ≤ 20; norm_num)

/-- C1 witness: the increment rule instantiated at the initial state
and a matching detection result. -/
theorem claim_C1_witness :
    effective_info (DriverClass.init 0 "alice") (some ⟨"alice", false, false⟩)
        = some ⟨"alice", false, false⟩
    ∧ (Info.mk "alice" false false).name = (DriverClass.init 0 "alice").driver_name
    ∧ (DriverClass.init 0 "alice").driver_vote < 20
    ∧ (detect_image (DriverClass.init 0 "alice") (some ⟨"alice", false, false⟩)).1.driver_vote
        = (DriverClass.init 0 "alice").driver_vote + 1 :=
  ⟨by decide, by decide, by decide,
    claim_C1.1 (DriverClass.init 0 "alice") (some ⟨"alice", false, false⟩)
      ⟨"alice", false, false⟩ (by decide) (by decide) (by decide)⟩

/-- C2: while the driving flag is false, a processed frame transitions
to Driving exactly when a detection result is in effect and the vote
after that frames update is at least 15; from the initial state, 15
consecutive matching frames transition exactly on frame 15 and not
before. -/
theorem claim_C2 :
    (∀ (s : DriverState) (r : Option Info), s.driving = false →
      ((detect_image s r).1.driving = true ↔
        (effective_info s r).isSome = true ∧ 15 ≤ (detect_image s r).1.driver_vote))
    ∧ (∀ k : ℕ, k < 15 →
        (runFrames (DriverClass.init 0 "alice")
          (List.replicate k (some ⟨"alice", false, false⟩))).driving = false)
    ∧ (runFrames (DriverClass.init 0 "alice")
        (List.replicate 15 (some ⟨"alice", false, false⟩))).driving = true
    ∧ (runFrames (DriverClass.init 0 "alice")
        (List.replicate 15 (some ⟨"alice", false, false⟩))).driver_vote = 15 := by
  refine ⟨?_, by decide, by decide, by decide⟩
  intro s r hd
  cases h : effective_info s r with
  | none =>
      rw [detect_image_of_none s r h]
      simp [hd]
  | some i =>
      rw [detect_image_of_some s r i h, process_info_fst]
      simp [hd]

/-- C2 witness: the transition criterion instantiated at the initial
state with an absent detection result. -/
theorem claim_C2_witness :
    (DriverClass.init 0 "alice").driving = false
    ∧ ((detect_image (DriverClass.init 0 "alice") none).1.driving = true ↔
        (effective_info (DriverClass.init 0 "alice") none).isSome = true
          ∧ 15 ≤ (detect_image (DriverClass.init 0 "alice") none).1.driver_vote) :=
  ⟨rfl, claim_C2.1 (DriverClass.init 0 "alice") none rfl⟩

/-- C3: once the driving flag is true it stays true on every subsequent
processed frame, whatever the detection results and the vote; while
driving, the displayed status only toggles between the wrong-driver
text (vote below 5) and the normal text; in the concrete scenario the
vote falls 15 to 4 over 11 mismatching frames (wrong-driver shown on
the frame reaching 4) and rises back to 15 over 11 matching frames with
the driving flag true throughout. -/
theorem claim_C3 :
    (∀ (s : DriverState) (r : Option Info), s.driving = true →
        (detect_image s r).1.driving = true)
    ∧ (∀ (s : DriverState) (rs : List (Option Info)), s.driving = true →
        (runFrames s rs).driving = true)
    ∧ (∀ (s : DriverState) (r : Option Info) (i : Info),
        effective_info s r = some i → s.driving = true →
        (detect_image s r).2.driving_status =
          some (if driver_vote_update s.driver_name s.driver_vote i.name < 5 then
                  wrongDriverText
                else drivingText))
    ∧ (∀ k : ℕ, k ≤ 11 →
        (runFrames
          (runFrames (DriverClass.init 0 "alice")
            (List.replicate 15 (some ⟨"alice", false, false⟩)))
          (List.replicate k (some ⟨"bob", false, false⟩))).driving = true)
    ∧ (runFrames
        (runFrames (DriverClass.init 0 "alice")
          (List.replicate 15 (some ⟨"alice", false, false⟩)))
        (List.replicate 11 (some ⟨"bob", false, false⟩))).driver_vote = 4
    ∧ (detect_image
        (runFrames
          (runFrames (DriverClass.init 0 "alice")
            (List.replicate 15 (some ⟨"alice", false, false⟩)))
          (List.replicate 10 (some ⟨"bob", false, false⟩)))
        (some ⟨"bob", false, false⟩)).2.driving_status = some wrongDriverText
    ∧ (∀ k : ℕ, k ≤ 11 →
        (runFrames
          (runFrames
            (runFrames (DriverClass.init 0 "alice")
              (List.replicate 15 (some ⟨"alice", false, false⟩)))
            (List.replicate 11 (some ⟨"bob", false, false⟩)))
          (List.replicate k (some ⟨"alice", false, false⟩))).driving = true)
    ∧ (runFrames
        (runFrames
          (runFrames (DriverClass.init 0 "alice")
            (List.replicate 15 (some ⟨"alice", false, false⟩)))
          (List.replicate 11 (some ⟨"bob", false, false⟩)))
        (List.replicate 11 (some ⟨"alice", false, false⟩))).driver_vote = 15 := by
  refine ⟨?_, ?_, ?_, by decide, by decide, by decide, by decide, by decide⟩
  · exact detect_image_driving_mono
  · intro s rs h
    exact runFrames_driving_mono rs s h
  · intro s r i h hd
    rw [detect_image_of_some s r i h, process_info_driving_status]
    simp [hd]

/-- C3 witness: monotonicity of the driving flag instantiated at a
concrete driving state and an absent detection result. -/
theorem claim_C3_witness :
    ({ DriverClass.init 0 "alice" with driving := true } : DriverState).driving = true
    ∧ (detect_image ({ DriverClass.init 0 "alice" with driving := true } : DriverState)
        none).1.driving = true :=
  ⟨rfl, claim_C3.1 { DriverClass.init 0 "alice" with driving := true } none rfl⟩

/-- C8: frame_count starts at max_frame_count so the first frame runs
detection; a frame with frame_count at least max_frame_count runs
detection, stores the fresh result and resets frame_count to 0; other
frames skip detection, keep the stored result and increment
frame_count; with max_frame_count 0 every frame runs detection; in
general detection runs exactly on every (max_frame_count+1)-th frame. -/
theorem claim_C8 :
    (∀ (mfc : ℕ) (nm : String),
        (DriverClass.init mfc nm).frame_count = (DriverClass.init mfc nm).max_frame_count
        ∧ runs_detection (DriverClass.init mfc nm))
    ∧ (∀ (s : DriverState) (r : Option Info), s.max_frame_count ≤ s.frame_count →
        (detect_image s r).1.frame_count = 0 ∧ (detect_image s r).1.info = r)
    ∧ (∀ (s : DriverState) (r : Option Info), s.frame_count < s.max_frame_count →
        (detect_image s r).1.frame_count = s.frame_count + 1
        ∧ (detect_image s r).1.info = s.info)
    ∧ (∀ (nm : String) (rs : List (Option Info)),
        runs_detection (runFrames (DriverClass.init 0 nm) rs))
    ∧ (∀ (mfc : ℕ) (nm : String) (rs : List (Option Info)),
        runs_detection (runFrames (DriverClass.init mfc nm) rs) ↔
          rs.length % (mfc + 1) = 0) := by
  refine ⟨?_, ?_, ?_, ?_, ?_⟩
  · exact fun mfc nm => ⟨rfl, le_refl mfc⟩
  · intro s r h
    refine ⟨?_, ?_⟩
    · rw [detect_image_frame_count, if_pos h]
    · rw [detect_image_info]
      unfold effective_info
      rw [if_pos h]
  · intro s r h
    refine ⟨?_, ?_⟩
    · rw [detect_image_frame_count, if_neg (not_le.mpr h)]
    · rw [detect_image_info]
      unfold effective_info
      rw [if_neg (not_le.mpr h)]
  · intro nm rs
    exact (runFrames_runs_detection rs 0 nm).2 (Nat.mod_one rs.length)
  · intro mfc nm rs
    exact runFrames_runs_detection rs mfc nm

/-- C8 witness: the run-and-reset rule instantiated at the initial
state, which runs detection on its first frame. -/
theorem claim_C8_witness :
    (DriverClass.init 0 "alice").max_frame_count ≤ (DriverClass.init 0 "alice").frame_count
    ∧ ((detect_image (DriverClass.init 0 "alice")
          (some ⟨"alice", false, false⟩)).1.frame_count = 0
        ∧ (detect_image (DriverClass.init 0 "alice")
            (some ⟨"alice", false, false⟩)).1.info = some ⟨"alice", false, false⟩) :=
  ⟨by decide,
    claim_C8.2.1 (DriverClass.init 0 "alice") (some ⟨"alice", false, false⟩) (by decide)⟩

/-- C9: on a processed frame taken while the driving flag is false the
displayed status is the locked text, also on the very frame the
transition to Driving fires (the status string is chosen before the
transition check); the normal-driving text first appears on the next
processed frame with a result; concretely, with 16 matching frames from
the initial state, frame 15 fires the transition but still displays the
locked text, and frame 16 displays the normal text. -/
theorem claim_C9 :
    (∀ (s : DriverState) (r : Option Info) (i : Info),
        effective_info s r = some i → s.driving = false →
        (detect_image s r).2.driving_status = some lockedText)
    ∧ (∀ (s : DriverState) (r : Option Info) (i : Info),
        effective_info s r = some i → s.driving = true →
        5 ≤ driver_vote_update s.driver_name s.driver_vote i.name →
        (detect_image s r).2.driving_status = some drivingText)
    ∧ (detect_image
        (runFrames (DriverClass.init 0 "alice")
          (List.replicate 14 (some ⟨"alice", false, false⟩)))
        (some ⟨"alice", false, false⟩)).2.driving_status = some lockedText
    ∧ (detect_image
        (runFrames (DriverClass.init 0 "alice")
          (List.replicate 14 (some ⟨"alice", false, false⟩)))
        (some ⟨"alice", false, false⟩)).1.driving = true
    ∧ (detect_image
        (runFrames (DriverClass.init 0 "alice")
          (List.replicate 15 (some ⟨"alice", false, false⟩)))
        (some ⟨"alice", false, false⟩)).2.driving_status = some drivingText := by
  refine ⟨?_, ?_, by decide, by decide, by decide⟩
  · intro s r i h hd
    rw [detect_image_of_some s r i h, process_info_driving_status]
    simp [hd]
  · intro s r i h hd h5
    rw [detect_image_of_some s r i h, process_info_driving_status]
    simp [hd, not_lt.mpr h5]

/-- C9 witness: the locked-display rule instantiated at the initial
state and a matching detection result. -/
theorem claim_C9_witness :
    effective_info (DriverClass.init 0 "alice") (some ⟨"alice", false, false⟩)
        = some ⟨"alice", false, false⟩
    ∧ (DriverClass.init 0 "alice").driving = false
    ∧ (detect_image (DriverClass.init 0 "alice")
        (some ⟨"alice", false, false⟩)).2.driving_status = some lockedText :=
  ⟨by decide, rfl,
    claim_C9.1 (DriverClass.init 0 "alice") (some ⟨"alice", false, false⟩)
      ⟨"alice", false, false⟩ (by decide) rfl⟩

/-- C10: a detection pass that finds no face clears the stored result
and renders the missing-driver output even when an older result was
stored; a skipped frame whose stored result is absent keeps it absent,
renders the missing-driver output and freezes the decision state; in
the concrete interleaving with max_frame_count 2, the two frames after
a no-face detection pass render the missing-driver output although the
pass before them had found a face. -/
theorem claim_C10 :
    (∀ s : DriverState, s.max_frame_count ≤ s.frame_count →
        (detect_image s none).1.info = none
        ∧ (detect_image s none).2.driverMissing = true)
    ∧ (∀ (s : DriverState) (r : Option Info), s.frame_count < s.max_frame_count →
        s.info = none →
        (detect_image s r).1.info = none
        ∧ (detect_image s r).2.driverMissing = true
        ∧ (detect_image s r).1.driver_vote = s.driver_vote
        ∧ (detect_image s r).1.driving = s.driving
        ∧ (detect_image s r).1.drowsiness_sum = s.drowsiness_sum
        ∧ (detect_image s r).1.yawn_sum = s.yawn_sum)
    ∧ ((runOutputs (DriverClass.init 2 "alice")
          [some ⟨"alice", true, false⟩, some ⟨"alice", true, false⟩,
           some ⟨"alice", true, false⟩, none, some ⟨"alice", true, false⟩]).map
            (fun o => o.driverMissing)
        = [false, false, false, true, true]) := by
  refine ⟨?_, ?_, by decide⟩
  · intro s h
    have he : effective_info s none = none := by
      unfold effective_info
      rw [if_pos h]
    rw [detect_image_of_none s none he]
    simp [he]
  · intro s r hlt hinfo
    have he : effective_info s r = none := by
      unfold effective_info
      rw [if_neg (not_le.mpr hlt)]
      exact hinfo
    rw [detect_image_of_none s r he]
    simp [he]

/-- C10 witness: the skipped-frame rule instantiated at a concrete
state that has an absent stored result and a frame budget that skips. -/
theorem claim_C10_witness :
    ({ DriverClass.init 2 "alice" with frame_count := 0 } : DriverState).frame_count
        < ({ DriverClass.init 2 "alice" with frame_count := 0 } : DriverState).max_frame_count
    ∧ ({ DriverClass.init 2 "alice" with frame_count := 0 } : DriverState).info = none
    ∧ ((detect_image ({ DriverClass.init 2 "alice" with frame_count := 0 } : DriverState)
          (some ⟨"alice", false, false⟩)).1.info = none
        ∧ (detect_image ({ DriverClass.init 2 "alice" with frame_count := 0 } : DriverState)
            (some ⟨"alice", false, false⟩)).2.driverMissing = true
        ∧ (detect_image ({ DriverClass.init 2 "alice" with frame_count := 0 } : DriverState)
            (some ⟨"alice", false, false⟩)).1.driver_vote
          = ({ DriverClass.init 2 "alice" with frame_count := 0 } : DriverState).driver_vote
        ∧ (detect_image ({ DriverClass.init 2 "alice" with frame_count := 0 } : DriverState)
            (some ⟨"alice", false, false⟩)).1.driving
          = ({ DriverClass.init 2 "alice" with frame_count := 0 } : DriverState).driving
        ∧ (detect_image ({ DriverClass.init 2 "alice" with frame_count := 0 } : DriverState)
            (some ⟨"alice", false, false⟩)).1.drowsiness_sum
          = ({ DriverClass.init 2 "alice" with frame_count := 0 } : DriverState).drowsiness_sum
        ∧ (detect_image ({ DriverClass.init 2 "alice" with frame_count := 0 } : DriverState)
            (some ⟨"alice", false, false⟩)).1.yawn_sum
          = ({ DriverClass.init 2 "alice" with frame_count := 0 } : DriverState).yawn_sum) :=
  ⟨by decide, rfl,
    claim_C10.2.1 ({ DriverClass.init 2 "alice" with frame_count := 0 } : DriverState)
      (some ⟨"alice", false, false⟩) (by decide) rfl⟩

end Driver
